import Mathlib

/-!
Verification of the gnc-autonomous-system repository.

Shallow embedding of `examples/hil_simulation_example.py` (the HIL
simulator: state model, sensor model, estimator, guidance, control,
actuation, dynamics propagation, scenario evaluation, run log and
driver loop) together with the repository's placeholder modules
(`MissionParameters`, `OrbitalMechanics`, `TrajectoryOptimizer`,
`DataProcessing`, `VisualizationTools`).

Numbers are modelled as real numbers (`ℝ`); numpy 3-vectors as a
record of three reals; the process-wide pseudorandom draws of the
sensor model as explicit standard-normal-draw inputs, so that the
deterministic part of each sampling formula can be stated exactly.
The lines printed to standard output by the evaluator are modelled
as an `output` list carried by the simulator record.
-/

namespace GNC

open Real

/-- A numpy 3-vector of floats, as used throughout the simulator. -/
structure Vec3 where
  x : ℝ
  y : ℝ
  z : ℝ

instance : Add Vec3 := ⟨fun a b => ⟨a.x + b.x, a.y + b.y, a.z + b.z⟩⟩

instance : Sub Vec3 := ⟨fun a b => ⟨a.x - b.x, a.y - b.y, a.z - b.z⟩⟩

instance : SMul ℝ Vec3 := ⟨fun k v => ⟨k * v.x, k * v.y, k * v.z⟩⟩

instance : Zero Vec3 := ⟨⟨0, 0, 0⟩⟩

/-- `np.linalg.norm`: the Euclidean norm of a 3-vector. -/
noncomputable def Vec3.norm (v : Vec3) : ℝ :=
  Real.sqrt (v.x ^ 2 + v.y ^ 2 + v.z ^ 2)

/-- The two-argument arctangent, with the semantics of `np.arctan2`
(equivalently C `atan2`) on real inputs: the angle of the point
`(x, y)` in `(-π, π]`, with `atan2 0 0 = 0`. -/
noncomputable def atan2 (y x : ℝ) : ℝ :=
  if 0 < x then Real.arctan (y / x)
  else if x < 0 then
    if 0 ≤ y then Real.arctan (y / x) + π
    else Real.arctan (y / x) - π
  else
    if 0 < y then π / 2
    else if y < 0 then -(π / 2)
    else 0

/-- The attitude-wrapping map used by `propagate_dynamics`:
`np.arctan2(np.sin(a), np.cos(a))`. -/
noncomputable def wrap (a : ℝ) : ℝ :=
  atan2 (Real.sin a) (Real.cos a)

/-- Componentwise attitude wrapping of a 3-vector. -/
noncomputable def wrapVec (v : Vec3) : Vec3 :=
  ⟨wrap v.x, wrap v.y, wrap v.z⟩

/-- The spacecraft state dictionary: position (km), velocity (km/s),
attitude (rad) and angular velocity (rad/s). -/
structure SpacecraftState where
  position : Vec3
  velocity : Vec3
  attitude : Vec3
  angular_velocity : Vec3

/-- One entry of `self.test_log`, as appended by `log_data`. -/
structure LogEntry where
  time : ℝ
  position : Vec3
  velocity : Vec3
  position_error : ℝ
  velocity_error : ℝ
  thrust_magnitude : ℝ

/-- The `HILSimulator` object: timestep `dt`, simulation `time`, the true
`state`, the run log `test_log`, and the lines printed so far (`output`
models the text written to standard output, where evaluator warnings go). -/
structure HILSimulator where
  dt : ℝ
  time : ℝ
  state : SpacecraftState
  test_log : List LogEntry
  output : List String

/-- The sensor-measurement dictionary returned by
`generate_sensor_measurements`. -/
structure SensorData where
  imu_accel : Vec3
  imu_gyro : Vec3
  star_tracker : Vec3
  lidar_range : ℝ
  camera_position : Vec3

/-- The raw standard-normal draws consumed by one call to
`generate_sensor_measurements` (one `np.random.randn(3)` per vector
channel and one `np.random.randn()` for the range channel). -/
structure SensorNoise where
  imu_accel : Vec3
  imu_gyro : Vec3
  star_tracker : Vec3
  lidar : ℝ
  camera : Vec3

/-- The all-zero draw: every standard-normal sample comes out 0
(the noise-free case). -/
def SensorNoise.zero : SensorNoise := ⟨0, 0, 0, 0, 0⟩

/-- The actuator-command dictionary: `thrust` (km/s²) and `torque` (N·m,
unit inertia). -/
structure ActuatorCommand where
  thrust : Vec3
  torque : Vec3

/-- The fixed initial conditions set by `initialize_state`. -/
def initState : SpacecraftState :=
  { position := ⟨2500, 200, -50⟩
    velocity := ⟨0.1, -0.05, 0.02⟩
    attitude := ⟨0, 0, 0⟩
    angular_velocity := ⟨0, 0, 0⟩ }

/-- `initialize_state`: overwrites `self.state` with the fixed initial
conditions. It touches neither `self.time` nor `self.test_log`. -/
def reset_state (sim : HILSimulator) : HILSimulator :=
  { sim with state := initState }

/-- `HILSimulator.__init__(dt)`: sets `dt`, `time = 0.0`, an empty log,
and calls `initialize_state`. -/
def mkSimulator (dt : ℝ) : HILSimulator :=
  { dt := dt, time := 0, state := initState, test_log := [], output := [] }

/-- Lines 58–60 of `run_test_scenario`: `self.initialize_state()` followed
by `self.test_log = []`. The simulation time is not assigned there. -/
def start_run (sim : HILSimulator) : HILSimulator :=
  { reset_state sim with test_log := [] }

/-- `generate_sensor_measurements`, with the pseudorandom standard-normal
draws passed in explicitly as `n`:
`imu_accel = randn(3) * 1e-4`, `imu_gyro = randn(3) * 1e-6`,
`star_tracker = attitude + randn(3) * 1e-6`,
`lidar_range = norm(position) * 1000 + randn() * 0.1`,
`camera_position = position + randn(3) * 0.001`. -/
noncomputable def generate_sensor_measurements (s : SpacecraftState)
    (n : SensorNoise) : SensorData :=
  { imu_accel := (1e-4 : ℝ) • n.imu_accel
    imu_gyro := (1e-6 : ℝ) • n.imu_gyro
    star_tracker := s.attitude + (1e-6 : ℝ) • n.star_tracker
    lidar_range := s.position.norm * 1000 + n.lidar * 0.1
    camera_position := s.position + (1e-3 : ℝ) • n.camera }

/-- `estimate_state`: pass-through fusion. Position from the camera,
attitude from the star tracker, velocity and angular velocity carried
over from the current true state. -/
def estimate_state (sensor_data : SensorData) (s : SpacecraftState) :
    SpacecraftState :=
  { position := sensor_data.camera_position
    velocity := s.velocity
    attitude := sensor_data.star_tracker
    angular_velocity := s.angular_velocity }

/-- `compute_guidance`: finite dispatch on the scenario string. -/
def compute_guidance (current_state : SpacecraftState) (scenario : String) :
    SpacecraftState :=
  if scenario = "RDV" then
    { position := ⟨20, 0, 0⟩, velocity := ⟨0, 0, 0⟩
      attitude := 0, angular_velocity := 0 }
  else if scenario = "TAG" then
    { position := ⟨0, 0, 0⟩, velocity := ⟨0, 0, -0.0001⟩
      attitude := 0, angular_velocity := 0 }
  else
    { position := 0, velocity := 0, attitude := 0, angular_velocity := 0 }

/-- `compute_control`: the linear PD law with gains
`Kp_pos = 0.01`, `Kd_pos = 0.1`, `Kp_att = 0.1`, `Kd_att = 0.05`. -/
def compute_control (current_state desired_state : SpacecraftState) :
    ActuatorCommand :=
  let pos_error := desired_state.position - current_state.position
  let vel_error := desired_state.velocity - current_state.velocity
  let att_error := desired_state.attitude - current_state.attitude
  let ang_vel_error :=
    desired_state.angular_velocity - current_state.angular_velocity
  { thrust := (0.01 : ℝ) • pos_error + (0.1 : ℝ) • vel_error
    torque := (0.1 : ℝ) • att_error + (0.05 : ℝ) • ang_vel_error }

/-- Scaling every field of a state by the constant `k`; used to state
the linearity of the control law (scaling both states scales every
error vector by `k`). -/
def scaleState (k : ℝ) (s : SpacecraftState) : SpacecraftState :=
  { position := k • s.position
    velocity := k • s.velocity
    attitude := k • s.attitude
    angular_velocity := k • s.angular_velocity }

/-- `apply_actuator_commands`: instantaneous velocity and
angular-velocity increments. -/
def apply_actuator_commands (sim : HILSimulator) (commands : ActuatorCommand) :
    HILSimulator :=
  { sim with state :=
      { sim.state with
        velocity := sim.state.velocity + sim.dt • commands.thrust
        angular_velocity :=
          sim.state.angular_velocity + sim.dt • commands.torque } }

/-- `propagate_dynamics`: explicit Euler step for position and attitude,
attitude wrapping, then `time += dt`. -/
noncomputable def propagate_dynamics (sim : HILSimulator) : HILSimulator :=
  { sim with
    state :=
      { sim.state with
        position := sim.state.position + sim.dt • sim.state.velocity
        attitude :=
          wrapVec (sim.state.attitude + sim.dt • sim.state.angular_velocity) }
    time := sim.time + sim.dt }

/-- `log_data`: appends one summary record (using the just-updated time
and true state) to `self.test_log`. -/
noncomputable def log_data (sim : HILSimulator)
    (estimated_state desired_state : SpacecraftState)
    (commands : ActuatorCommand) : HILSimulator :=
  { sim with test_log := sim.test_log ++
      [{ time := sim.time
         position := sim.state.position
         velocity := sim.state.velocity
         position_error :=
           (desired_state.position - estimated_state.position).norm
         velocity_error :=
           (desired_state.velocity - estimated_state.velocity).norm
         thrust_magnitude := commands.thrust.norm }] }

/-- `check_success_criteria`: returns the boolean result and the list of
warning lines printed (empty when no warning is emitted). -/
noncomputable def check_success_criteria (s : SpacecraftState) (time : ℝ)
    (scenario : String) : Bool × List String :=
  if scenario = "RDV" then
    let pos_error := (s.position - ⟨20, 0, 0⟩).norm
    let vel_error := s.velocity.norm
    if pos_error > 10 then
      (false, ["WARNING: Position error exceeds threshold!"])
    else (true, [])
  else if scenario = "TAG" then
    let altitude := s.position.norm
    if altitude > 0.1 ∧ time > 50 then
      (false, ["WARNING: Altitude - descent too slow!"])
    else (true, [])
  else (true, [])

/-- One iteration of the main test loop of `run_test_scenario`
(steps 1–8), parametric in the evaluator `ev` invoked at step 8.
The evaluator runs on every 10th iteration; its boolean result is
discarded, and its warning lines go to the output stream. The code's
loop instantiates `ev` with `check_success_criteria`. -/
noncomputable def tick (ev : SpacecraftState → ℝ → String → Bool × List String)
    (scenario : String) (n : SensorNoise) (i : ℕ) (sim : HILSimulator) :
    HILSimulator :=
  let sensor_data := generate_sensor_measurements sim.state n
  let estimated_state := estimate_state sensor_data sim.state
  let desired_state := compute_guidance estimated_state scenario
  let commands := compute_control estimated_state desired_state
  let sim1 := apply_actuator_commands sim commands
  let sim2 := propagate_dynamics sim1
  let sim3 := log_data sim2 estimated_state desired_state commands
  if i % 10 = 0 then
    let r := ev sim3.state sim3.time scenario
    { sim3 with output := sim3.output ++ r.2 }
  else sim3

/-- One iteration of the main test loop with the evaluation step (step 8)
removed: steps 1–7 only. -/
noncomputable def tickNoEval (scenario : String) (n : SensorNoise)
    (sim : HILSimulator) : HILSimulator :=
  let sensor_data := generate_sensor_measurements sim.state n
  let estimated_state := estimate_state sensor_data sim.state
  let desired_state := compute_guidance estimated_state scenario
  let commands := compute_control estimated_state desired_state
  let sim1 := apply_actuator_commands sim commands
  let sim2 := propagate_dynamics sim1
  log_data sim2 estimated_state desired_state commands

/-- The driver loop `while self.time < duration`, parametric in the
evaluator `ev` and supplied with the stream `noises` of pseudorandom
draws (draw `noises i` is consumed at iteration `i`). `fuel` bounds the
number of iterations so the recursion is structural; the loop body runs
only while `time < duration`. -/
noncomputable def runLoop
    (ev : SpacecraftState → ℝ → String → Bool × List String)
    (scenario : String) (noises : ℕ → SensorNoise) (duration : ℝ) :
    ℕ → ℕ → HILSimulator → HILSimulator
  | 0, _, sim => sim
  | fuel + 1, i, sim =>
      if sim.time < duration then
        runLoop ev scenario noises duration fuel (i + 1)
          (tick ev scenario (noises i) i sim)
      else sim

/-- The driver loop with the evaluation step removed from the body. -/
noncomputable def runLoopNoEval (scenario : String)
    (noises : ℕ → SensorNoise) (duration : ℝ) :
    ℕ → ℕ → HILSimulator → HILSimulator
  | 0, _, sim => sim
  | fuel + 1, i, sim =>
      if sim.time < duration then
        runLoopNoEval scenario noises duration fuel (i + 1)
          (tickNoEval scenario (noises i) sim)
      else sim

/-- `run_test_scenario`: reset the state, clear the log, then run the
main loop from iteration 0 with `check_success_criteria` as evaluator. -/
noncomputable def run_test_scenario (scenario : String)
    (noises : ℕ → SensorNoise) (duration : ℝ) (fuel : ℕ)
    (sim : HILSimulator) : HILSimulator :=
  runLoop check_success_criteria scenario noises duration fuel 0
    (start_run sim)

/-- Forgetting the output stream of a simulator: the projection to the
fields the control loop itself reads and writes (timestep, time, true
state, run log). -/
def stripOutput (sim : HILSimulator) : HILSimulator :=
  { sim with output := [] }

/-- `np.mean` of a list, defined only for non-empty lists (numpy's mean
of an empty array is ill-defined / NaN). -/
noncomputable def meanList (l : List ℝ) : Option ℝ :=
  if l = [] then none else some (l.sum / l.length)

/-- `np.max` of a list, defined only for non-empty lists (numpy's max of
an empty array raises). -/
noncomputable def maxList (l : List ℝ) : Option ℝ :=
  l.max?

/-- The contents of the final report printed by
`print_final_statistics`. -/
structure FinalReport where
  final_position : Vec3
  final_velocity : Vec3
  final_position_error : ℝ
  final_velocity_error : ℝ
  mean_position_error : Option ℝ
  max_position_error : Option ℝ
  mean_velocity_error : Option ℝ
  max_velocity_error : Option ℝ

/-- `print_final_statistics`: if the log is empty, return at once with no
report; otherwise report the last entry and the mean/max statistics over
the whole log. -/
noncomputable def print_final_statistics (sim : HILSimulator) :
    Option FinalReport :=
  match sim.test_log with
  | [] => none
  | e :: es =>
      let final_entry := (e :: es).getLast (by simp)
      let pos_errors := (e :: es).map (fun r => r.position_error)
      let vel_errors := (e :: es).map (fun r => r.velocity_error)
      some
        { final_position := final_entry.position
          final_velocity := sim.state.velocity
          final_position_error := final_entry.position_error
          final_velocity_error := final_entry.velocity_error
          mean_position_error := meanList pos_errors
          max_position_error := maxList pos_errors
          mean_velocity_error := meanList vel_errors
          max_velocity_error := maxList vel_errors }

/-- A simulator mid-run: time has advanced to 7 s. Used to exhibit that
the run-start reset does not touch the simulation time. -/
def simMid : HILSimulator :=
  { dt := 0.1, time := 7, state := initState, test_log := [], output := [] }

/-- A true state that is spinning: angular velocity (1,0,0) rad/s. -/
def sSpin : SpacecraftState :=
  { position := ⟨1, 2, 3⟩, velocity := 0, attitude := 0
    angular_velocity := ⟨1, 0, 0⟩ }

/-- A true state exactly at the RDV target (20,0,0) km. -/
def sAtTarget : SpacecraftState :=
  { position := ⟨20, 0, 0⟩, velocity := 0, attitude := 0
    angular_velocity := 0 }

/-- A true state 11 km away from the RDV target. -/
def sFarTarget : SpacecraftState :=
  { position := ⟨31, 0, 0⟩, velocity := 0, attitude := 0
    angular_velocity := 0 }

/-- A freshly constructed simulator: its run log is empty. -/
noncomputable def simEmptyLog : HILSimulator := mkSimulator (1 / 10)

/-- A simulator whose run log holds exactly one record. -/
noncomputable def simOneLog : HILSimulator :=
  { mkSimulator (1 / 10) with
    test_log := [{ time := 1 / 10, position := 0, velocity := 0
                   position_error := 1, velocity_error := 2
                   thrust_magnitude := 3 }] }

end GNC

namespace MissionParameters

/-- `MissionParameters.calculate`: returns its input unchanged. -/
def calculate {α : Type} (input_data : α) : α := input_data

/-- `MissionParameters.validate`: true iff the input is not `None`. -/
def validate {α : Type} (data : Option α) : Bool := data.isSome

end MissionParameters

namespace OrbitalMechanics

/-- `OrbitalMechanics.calculate`: returns its input unchanged. -/
def calculate {α : Type} (input_data : α) : α := input_data

/-- `OrbitalMechanics.validate`: true iff the input is not `None`. -/
def validate {α : Type} (data : Option α) : Bool := data.isSome

end OrbitalMechanics

namespace TrajectoryOptimizer

/-- `TrajectoryOptimizer.calculate`: returns its input unchanged. -/
def calculate {α : Type} (input_data : α) : α := input_data

/-- `TrajectoryOptimizer.validate`: true iff the input is not `None`. -/
def validate {α : Type} (data : Option α) : Bool := data.isSome

end TrajectoryOptimizer

namespace DataProcessing

/-- `DataProcessing.calculate`: returns its input unchanged. -/
def calculate {α : Type} (input_data : α) : α := input_data

/-- `DataProcessing.validate`: true iff the input is not `None`. -/
def validate {α : Type} (data : Option α) : Bool := data.isSome

end DataProcessing

namespace VisualizationTools

/-- `VisualizationTools.calculate`: returns its input unchanged. -/
def calculate {α : Type} (input_data : α) : α := input_data

/-- `VisualizationTools.validate`: true iff the input is not `None`. -/
def validate {α : Type} (data : Option α) : Bool := data.isSome

end VisualizationTools

namespace GNC

open Real

@[simp] theorem Vec3.add_x (a b : Vec3) : (a + b).x = a.x + b.x := rfl

@[simp] theorem Vec3.add_y (a b : Vec3) : (a + b).y = a.y + b.y := rfl

@[simp] theorem Vec3.add_z (a b : Vec3) : (a + b).z = a.z + b.z := rfl

@[simp] theorem Vec3.sub_x (a b : Vec3) : (a - b).x = a.x - b.x := rfl

@[simp] theorem Vec3.sub_y (a b : Vec3) : (a - b).y = a.y - b.y := rfl

@[simp] theorem Vec3.sub_z (a b : Vec3) : (a - b).z = a.z - b.z := rfl

@[simp] theorem Vec3.smul_x (k : ℝ) (v : Vec3) : (k • v).x = k * v.x := rfl

@[simp] theorem Vec3.smul_y (k : ℝ) (v : Vec3) : (k • v).y = k * v.y := rfl

@[simp] theorem Vec3.smul_z (k : ℝ) (v : Vec3) : (k • v).z = k * v.z := rfl

@[simp] theorem Vec3.zero_x : (0 : Vec3).x = 0 := rfl

@[simp] theorem Vec3.zero_y : (0 : Vec3).y = 0 := rfl

@[simp] theorem Vec3.zero_z : (0 : Vec3).z = 0 := rfl

@[ext] theorem Vec3.ext' {a b : Vec3} (hx : a.x = b.x) (hy : a.y = b.y)
    (hz : a.z = b.z) : a = b := by
  cases a; cases b; simp_all

@[simp] theorem Vec3.smul_zero' (k : ℝ) : k • (0 : Vec3) = 0 := by
  ext <;> simp

@[simp] theorem Vec3.add_zero' (v : Vec3) : v + 0 = v := by
  ext <;> simp

theorem Vec3.norm_zero' : (0 : Vec3).norm = 0 := by
  simp [Vec3.norm]

theorem arctan_nonpos_of {t : ℝ} (ht : t ≤ 0) : Real.arctan t ≤ 0 := by
  have h := Real.arctan_strictMono.monotone ht
  simpa [Real.arctan_zero] using h

theorem arctan_pos_of {t : ℝ} (ht : 0 < t) : 0 < Real.arctan t := by
  have h := Real.arctan_strictMono ht
  simpa [Real.arctan_zero] using h

/-- The result of `atan2` always lies in `(-π, π]`. -/
theorem atan2_mem_Ioc (y x : ℝ) : atan2 y x ∈ Set.Ioc (-π) π := by
  have hpi := Real.pi_pos
  have h1 := Real.arctan_lt_pi_div_two (y / x)
  have h2 := Real.neg_pi_div_two_lt_arctan (y / x)
  unfold atan2
  split_ifs with hx hx' hy hy1 hy2
  · exact ⟨by linarith, by linarith⟩
  · -- x < 0, 0 ≤ y: the ratio is nonpositive, so arctan of it is nonpositive
    have hr : y / x ≤ 0 := div_nonpos_of_nonneg_of_nonpos hy hx'.le
    have h3 : Real.arctan (y / x) ≤ 0 := arctan_nonpos_of hr
    exact ⟨by linarith, by linarith⟩
  · -- x < 0, y < 0: the ratio is positive, so arctan of it is positive
    have hr : 0 < y / x := div_pos_of_neg_of_neg (by linarith) hx'
    have h3 : 0 < Real.arctan (y / x) := arctan_pos_of hr
    exact ⟨by linarith, by linarith⟩
  · exact ⟨by linarith, by linarith⟩
  · exact ⟨by linarith, by linarith⟩
  · exact ⟨by linarith, by linarith⟩

/-- Wrapping a value already in `(-π, π]` returns it unchanged. -/
theorem wrap_eq_self_of_mem {a : ℝ} (ha : a ∈ Set.Ioc (-π) π) : wrap a = a := by
  have hpi := Real.pi_pos
  obtain ⟨hlo, hhi⟩ := ha
  unfold wrap atan2
  rcases lt_trichotomy a (-(π / 2)) with hD | hE | hrest
  · -- -π < a < -π/2 : cos a < 0, sin a < 0
    have hcos : Real.cos a < 0 := by
      rw [← Real.cos_neg]
      exact Real.cos_neg_of_pi_div_two_lt_of_lt (by linarith) (by linarith)
    have hsin : Real.sin a < 0 := by
      have h := Real.sin_pos_of_pos_of_lt_pi (x := -a) (by linarith) (by linarith)
      rw [Real.sin_neg] at h
      linarith
    rw [if_neg (by linarith), if_pos hcos, if_neg (by linarith)]
    have htan : Real.sin a / Real.cos a = Real.tan (a + π) := by
      rw [Real.tan_periodic a, Real.tan_eq_sin_div_cos]
    rw [htan, Real.arctan_tan (by linarith) (by linarith)]
    ring
  · -- a = -π/2 : cos a = 0, sin a = -1
    subst hE
    have hc : Real.cos (-(π / 2)) = 0 := by
      rw [Real.cos_neg, Real.cos_pi_div_two]
    have hs : Real.sin (-(π / 2)) = -1 := by
      rw [Real.sin_neg, Real.sin_pi_div_two]
    rw [if_neg (by rw [hc]; linarith), if_neg (by rw [hc]; linarith),
      if_neg (by rw [hs]; linarith), if_pos (by rw [hs]; linarith)]
  · rcases lt_trichotomy a (π / 2) with hA | hB | hC
    · -- -π/2 < a < π/2 : cos a > 0
      have hcos : 0 < Real.cos a := Real.cos_pos_of_mem_Ioo ⟨hrest, hA⟩
      rw [if_pos hcos, ← Real.tan_eq_sin_div_cos,
        Real.arctan_tan (by linarith) (by linarith)]
    · -- a = π/2 : cos a = 0, sin a = 1
      subst hB
      rw [if_neg (by rw [Real.cos_pi_div_two]; linarith),
        if_neg (by rw [Real.cos_pi_div_two]; linarith),
        if_pos (by rw [Real.sin_pi_div_two]; linarith)]
    · -- π/2 < a ≤ π : cos a < 0, sin a ≥ 0
      have hcos : Real.cos a < 0 :=
        Real.cos_neg_of_pi_div_two_lt_of_lt hC (by linarith)
      have hsin : 0 ≤ Real.sin a :=
        Real.sin_nonneg_of_nonneg_of_le_pi (by linarith) hhi
      rw [if_neg (by linarith), if_pos hcos, if_pos hsin]
      have htan : Real.sin a / Real.cos a = Real.tan (a - π) := by
        rw [Real.tan_periodic.sub_eq a, Real.tan_eq_sin_div_cos]
      rw [htan, Real.arctan_tan (by linarith) (by linarith)]
      ring

/-- C3: the attitude-wrapping map `a ↦ atan2(sin a, cos a)` used by the
dynamics propagation is range-preserving and idempotent: its value always
lies in `(-π, π]`, a value already in `(-π, π]` is returned unchanged, and
wrapping twice equals wrapping once. -/
theorem wrap_range_and_fixed (a : ℝ) :
    wrap a ∈ Set.Ioc (-π) π ∧
    (a ∈ Set.Ioc (-π) π → wrap a = a) ∧
    wrap (wrap a) = wrap a :=
  ⟨atan2_mem_Ioc _ _, fun ha => wrap_eq_self_of_mem ha,
    wrap_eq_self_of_mem (atan2_mem_Ioc _ _)⟩

/-- Witness for C3 at the concrete input `1`. -/
theorem wrap_range_and_fixed_witness :
    wrap 1 ∈ Set.Ioc (-π) π ∧ wrap 1 = 1 := by
  have hpi := Real.pi_gt_three
  have h := wrap_range_and_fixed 1
  exact ⟨h.1, h.2.1 ⟨by linarith, by linarith⟩⟩

/-- C1 counterexample: running the scenario-start reset (reset of the
state vector and clearing of the log) on a simulator whose clock reads
7 s does not return the simulation time to 0: `initialize_state` never
assigns `self.time`. -/
theorem start_run_keeps_time : ¬ ((start_run simMid).time = 0) := by
  norm_num [start_run, reset_state, simMid]

/-- C1 (amended): the reset operation and the scenario-run start restore
the state vector to the fixed initial conditions — position
(2500, 200, −50) km, velocity (0.1, −0.05, 0.02) km/s, zero attitude and
angular velocity — and the run start clears the log, but both leave the
simulation time unchanged; the time is 0 only as set at construction. -/
theorem reset_state_behavior (sim : HILSimulator) (dt : ℝ) :
    (reset_state sim).state.position = ⟨2500, 200, -50⟩ ∧
    (reset_state sim).state.velocity = ⟨0.1, -0.05, 0.02⟩ ∧
    (reset_state sim).state.attitude = 0 ∧
    (reset_state sim).state.angular_velocity = 0 ∧
    (reset_state sim).time = sim.time ∧
    (reset_state sim).test_log = sim.test_log ∧
    (start_run sim).state = initState ∧
    (start_run sim).test_log = [] ∧
    (start_run sim).time = sim.time ∧
    (mkSimulator dt).time = 0 ∧ (mkSimulator dt).state = initState := by
  refine ⟨?_, ?_, ?_, ?_, rfl, rfl, rfl, rfl, rfl, rfl, rfl⟩ <;>
    ext <;> norm_num [reset_state, initState]

/-- C2 counterexample: with every pseudorandom draw equal to 0 (the
noise-free case), the sampled gyro channel of a spinning spacecraft is
the zero vector, not the true angular velocity (1,0,0) rad/s: the IMU
channels are noise-only, never truth plus noise. -/
theorem imu_gyro_not_truth :
    ¬ ((generate_sensor_measurements sSpin SensorNoise.zero).imu_gyro =
        sSpin.angular_velocity) := by
  intro h
  have hx := congrArg Vec3.x h
  simp [generate_sensor_measurements, SensorNoise.zero, sSpin] at hx

/-- C2 (amended): the star-tracker, range and relative-position channels
equal the corresponding true-state quantity plus its scaled noise draw
(σ = 1e-6 rad, 0.1 m, 0.001 km), with the range the Euclidean norm of
the true position times 1000; the IMU accel and gyro channels are pure
scaled noise (σ = 1e-4, 1e-6) independent of the true state. With all
draws zero, the former equal the true quantities and the IMU channels
are zero. -/
theorem generate_sensor_measurements_channels (s : SpacecraftState)
    (n : SensorNoise) :
    (generate_sensor_measurements s n).star_tracker =
      s.attitude + (1e-6 : ℝ) • n.star_tracker ∧
    (generate_sensor_measurements s n).lidar_range =
      s.position.norm * 1000 + n.lidar * 0.1 ∧
    (generate_sensor_measurements s n).camera_position =
      s.position + (1e-3 : ℝ) • n.camera ∧
    (generate_sensor_measurements s n).imu_accel = (1e-4 : ℝ) • n.imu_accel ∧
    (generate_sensor_measurements s n).imu_gyro = (1e-6 : ℝ) • n.imu_gyro ∧
    (generate_sensor_measurements s SensorNoise.zero).star_tracker =
      s.attitude ∧
    (generate_sensor_measurements s SensorNoise.zero).lidar_range =
      s.position.norm * 1000 ∧
    (generate_sensor_measurements s SensorNoise.zero).camera_position =
      s.position ∧
    (generate_sensor_measurements s SensorNoise.zero).imu_accel = 0 ∧
    (generate_sensor_measurements s SensorNoise.zero).imu_gyro = 0 := by
  refine ⟨rfl, rfl, rfl, rfl, rfl, ?_, ?_, ?_, ?_, ?_⟩ <;>
    simp [generate_sensor_measurements, SensorNoise.zero]

/-- C5: the guidance law is a pure dispatch on the scenario string and
ignores the estimated state: RDV targets position (20,0,0) km at rest,
TAG targets the origin with a 0.1 mm/s descent along −z, and any other
scenario yields the all-zero desired state; desired attitude and angular
velocity are always zero. -/
theorem compute_guidance_dispatch (est est2 : SpacecraftState)
    (scenario : String) :
    compute_guidance est scenario = compute_guidance est2 scenario ∧
    compute_guidance est "RDV" =
      { position := ⟨20, 0, 0⟩, velocity := ⟨0, 0, 0⟩
        attitude := 0, angular_velocity := 0 } ∧
    compute_guidance est "TAG" =
      { position := ⟨0, 0, 0⟩, velocity := ⟨0, 0, -0.0001⟩
        attitude := 0, angular_velocity := 0 } ∧
    (scenario ≠ "RDV" → scenario ≠ "TAG" →
      compute_guidance est scenario =
        { position := 0, velocity := 0, attitude := 0
          angular_velocity := 0 }) := by
  refine ⟨rfl, ?_, ?_, ?_⟩
  · simp [compute_guidance]
  · simp [compute_guidance]
  · intro h1 h2
    simp [compute_guidance, h1, h2]

/-- Witness for C5 at the unrecognized scenario string "XYZ". -/
theorem compute_guidance_dispatch_witness :
    ("XYZ" : String) ≠ "RDV" ∧ ("XYZ" : String) ≠ "TAG" ∧
    compute_guidance initState "XYZ" =
      { position := 0, velocity := 0, attitude := 0
        angular_velocity := 0 } :=
  ⟨by decide, by decide,
    (compute_guidance_dispatch initState initState "XYZ").2.2.2
      (by decide) (by decide)⟩

/-- C4: for the RDV scenario, the evaluator returns true (and prints no
warning) whenever the true position lies within 10 km of the target
(20,0,0) km, boundary included, and returns false with a warning line
whenever the distance exceeds 10 km. -/
theorem check_success_criteria_RDV_threshold (s : SpacecraftState) (t : ℝ) :
    ((s.position - ⟨20, 0, 0⟩).norm ≤ 10 →
      check_success_criteria s t "RDV" = (true, [])) ∧
    ((s.position - ⟨20, 0, 0⟩).norm > 10 →
      check_success_criteria s t "RDV" =
        (false, ["WARNING: Position error exceeds threshold!"])) := by
  constructor
  · intro h
    simp [check_success_criteria, not_lt.mpr h]
  · intro h
    simp [check_success_criteria, h]

/-- Witness for C4: at the target the distance is 0 ≤ 10 and the check
passes; 11 km away it fails with a warning. -/
theorem check_success_criteria_RDV_threshold_witness :
    (sAtTarget.position - ⟨20, 0, 0⟩).norm ≤ 10 ∧
    check_success_criteria sAtTarget 0 "RDV" = (true, []) ∧
    (sFarTarget.position - ⟨20, 0, 0⟩).norm > 10 ∧
    check_success_criteria sFarTarget 0 "RDV" =
      (false, ["WARNING: Position error exceeds threshold!"]) := by
  have h1 : (sAtTarget.position - ⟨20, 0, 0⟩).norm ≤ 10 := by
    have : (sAtTarget.position - ⟨20, 0, 0⟩).norm = 0 := by
      simp [sAtTarget, Vec3.norm]
    rw [this]; norm_num
  have h2 : (sFarTarget.position - ⟨20, 0, 0⟩).norm > 10 := by
    have : (sFarTarget.position - ⟨20, 0, 0⟩).norm = 11 := by
      simp only [Vec3.norm, sFarTarget, Vec3.sub_x, Vec3.sub_y, Vec3.sub_z]
      norm_num
      rw [show (121 : ℝ) = 11 ^ 2 by norm_num]
      exact Real.sqrt_sq (by norm_num)
    rw [this]; norm_num
  exact ⟨h1, (check_success_criteria_RDV_threshold sAtTarget 0).1 h1,
    h2, (check_success_criteria_RDV_threshold sFarTarget 0).2 h2⟩

@[simp] theorem propagate_dt (sim : HILSimulator) :
    (propagate_dynamics sim).dt = sim.dt := rfl

@[simp] theorem propagate_time (sim : HILSimulator) :
    (propagate_dynamics sim).time = sim.time + sim.dt := rfl

@[simp] theorem propagate_velocity (sim : HILSimulator) :
    (propagate_dynamics sim).state.velocity = sim.state.velocity := rfl

@[simp] theorem propagate_position (sim : HILSimulator) :
    (propagate_dynamics sim).state.position =
      sim.state.position + sim.dt • sim.state.velocity := rfl

theorem propagate_iterate (sim : HILSimulator) (n : ℕ) :
    (propagate_dynamics^[n] sim).dt = sim.dt ∧
    (propagate_dynamics^[n] sim).time = sim.time + n * sim.dt ∧
    (propagate_dynamics^[n] sim).state.velocity = sim.state.velocity ∧
    (propagate_dynamics^[n] sim).state.position =
      sim.state.position + (n * sim.dt) • sim.state.velocity := by
  induction n with
  | zero =>
      refine ⟨rfl, by simp, rfl, ?_⟩
      ext <;> simp
  | succ n ih =>
      obtain ⟨hdt, htime, hvel, hpos⟩ := ih
      rw [Function.iterate_succ_apply']
      refine ⟨by simp [hdt], ?_, by simp [hvel], ?_⟩
      · simp only [propagate_time, htime, hdt]
        push_cast
        ring
      · simp only [propagate_position, hpos, hvel, hdt]
        ext <;> simp <;> ring

/-- C7: each dynamics-propagation step advances the simulation time by
exactly `dt` and the position by `velocity · dt` (explicit Euler), and —
since propagation never changes the velocity — `n` repeated steps advance
the position by `n · dt · velocity` and the time by `n · dt`. -/
theorem propagate_dynamics_euler (sim : HILSimulator) (h : 0 < sim.dt) :
    (propagate_dynamics sim).time = sim.time + sim.dt ∧
    (propagate_dynamics sim).state.position =
      sim.state.position + sim.dt • sim.state.velocity ∧
    ∀ n : ℕ,
      (propagate_dynamics^[n] sim).time = sim.time + n * sim.dt ∧
      (propagate_dynamics^[n] sim).state.velocity = sim.state.velocity ∧
      (propagate_dynamics^[n] sim).state.position =
        sim.state.position + (n * sim.dt) • sim.state.velocity :=
  ⟨rfl, rfl, fun n =>
    ⟨(propagate_iterate sim n).2.1, (propagate_iterate sim n).2.2.1,
      (propagate_iterate sim n).2.2.2⟩⟩

/-- Witness for C7: with `dt = 1/10`, three propagation steps advance the
clock from 0 to 3/10. -/
theorem propagate_dynamics_euler_witness :
    0 < (mkSimulator (1 / 10)).dt ∧
    (propagate_dynamics^[3] (mkSimulator (1 / 10))).time = 3 * (1 / 10) := by
  have hdt : 0 < (mkSimulator (1 / 10)).dt := by norm_num [mkSimulator]
  have h :=
    ((propagate_dynamics_euler (mkSimulator (1 / 10)) hdt).2.2 3).1
  refine ⟨hdt, ?_⟩
  rw [h]
  norm_num [mkSimulator]

/-- C6: the control law is the linear PD law
`thrust = 0.01·pos_error + 0.1·vel_error`,
`torque = 0.1·att_error + 0.05·ang_vel_error`, and it is linear in the
errors: scaling both states by a constant `k` (which scales every error
vector by `k`) scales the thrust and torque outputs by `k`. -/
theorem compute_control_linear (k : ℝ) (est des : SpacecraftState) :
    compute_control est des =
      { thrust := (0.01 : ℝ) • (des.position - est.position) +
          (0.1 : ℝ) • (des.velocity - est.velocity)
        torque := (0.1 : ℝ) • (des.attitude - est.attitude) +
          (0.05 : ℝ) • (des.angular_velocity - est.angular_velocity) } ∧
    (compute_control (scaleState k est) (scaleState k des)).thrust =
      k • (compute_control est des).thrust ∧
    (compute_control (scaleState k est) (scaleState k des)).torque =
      k • (compute_control est des).torque := by
  refine ⟨rfl, ?_, ?_⟩ <;>
    · apply Vec3.ext' <;> simp [compute_control, scaleState] <;> ring

/-- C10: if the run log is empty, `print_final_statistics` returns at
once with no report; when the log is non-empty, every aggregate mean/max
in the report is defined (the ill-defined empty-sequence mean/max is
never evaluated). -/
theorem print_final_statistics_empty_guard (sim : HILSimulator) :
    (sim.test_log = [] → print_final_statistics sim = none) ∧
    (sim.test_log ≠ [] → ∃ r : FinalReport,
      print_final_statistics sim = some r ∧
      r.mean_position_error.isSome ∧ r.max_position_error.isSome ∧
      r.mean_velocity_error.isSome ∧ r.max_velocity_error.isSome) := by
  constructor
  · intro h
    simp [print_final_statistics, h]
  · intro h
    obtain ⟨e, es, hlog⟩ : ∃ e es, sim.test_log = e :: es := by
      cases hl : sim.test_log with
      | nil => exact absurd hl h
      | cons e es => exact ⟨e, es, rfl⟩
    simp only [print_final_statistics, hlog]
    refine ⟨_, rfl, ?_, ?_, ?_, ?_⟩ <;>
      simp [meanList, maxList, List.max?_cons']

/-- Witness for C10: a fresh simulator (empty log) yields no report; a
one-record log yields a report whose aggregates are all defined. -/
theorem print_final_statistics_empty_guard_witness :
    (simEmptyLog.test_log = [] ∧ print_final_statistics simEmptyLog = none) ∧
    (simOneLog.test_log ≠ [] ∧ ∃ r : FinalReport,
      print_final_statistics simOneLog = some r ∧
      r.mean_position_error.isSome ∧ r.max_position_error.isSome ∧
      r.mean_velocity_error.isSome ∧ r.max_velocity_error.isSome) := by
  constructor
  · have h : simEmptyLog.test_log = [] := rfl
    exact ⟨h, (print_final_statistics_empty_guard simEmptyLog).1 h⟩
  · have h : simOneLog.test_log ≠ [] := by
      simp [simOneLog, mkSimulator]
    exact ⟨h, (print_final_statistics_empty_guard simOneLog).2 h⟩

theorem tick_log_length
    (ev : SpacecraftState → ℝ → String → Bool × List String)
    (scenario : String) (n : SensorNoise) (i : ℕ) (sim : HILSimulator) :
    (tick ev scenario n i sim).test_log.length = sim.test_log.length + 1 := by
  by_cases h : i % 10 = 0 <;>
    simp [tick, log_data, propagate_dynamics, apply_actuator_commands, h]

theorem stripOutput_tick
    (ev : SpacecraftState → ℝ → String → Bool × List String)
    (scenario : String) (n : SensorNoise) (i : ℕ) (sim : HILSimulator) :
    stripOutput (tick ev scenario n i sim) =
      stripOutput (tickNoEval scenario n sim) := by
  by_cases h : i % 10 = 0 <;>
    simp [tick, tickNoEval, stripOutput, h]

theorem tickNoEval_stripOutput (scenario : String) (n : SensorNoise)
    (sim : HILSimulator) :
    stripOutput (tickNoEval scenario n (stripOutput sim)) =
      stripOutput (tickNoEval scenario n sim) := rfl

theorem runLoop_strip_eq
    (ev : SpacecraftState → ℝ → String → Bool × List String)
    (scenario : String) (noises : ℕ → SensorNoise) (duration : ℝ) :
    ∀ (fuel i : ℕ) (s1 s2 : HILSimulator),
      stripOutput s1 = stripOutput s2 →
      stripOutput (runLoop ev scenario noises duration fuel i s1) =
        stripOutput (runLoopNoEval scenario noises duration fuel i s2) := by
  intro fuel
  induction fuel with
  | zero =>
      intro i s1 s2 h
      simpa [runLoop, runLoopNoEval] using h
  | succ fuel ih =>
      intro i s1 s2 h
      have htime : s1.time = s2.time := by
        have h' := congrArg HILSimulator.time h
        simpa [stripOutput] using h'
      simp only [runLoop, runLoopNoEval]
      by_cases hc : s1.time < duration
      · rw [if_pos hc, if_pos (htime ▸ hc)]
        apply ih
        calc stripOutput (tick ev scenario (noises i) i s1)
            = stripOutput (tickNoEval scenario (noises i) s1) :=
              stripOutput_tick ev scenario (noises i) i s1
          _ = stripOutput (tickNoEval scenario (noises i) (stripOutput s1)) :=
              (tickNoEval_stripOutput scenario (noises i) s1).symm
          _ = stripOutput (tickNoEval scenario (noises i) (stripOutput s2)) :=
              by rw [h]
          _ = stripOutput (tickNoEval scenario (noises i) s2) :=
              tickNoEval_stripOutput scenario (noises i) s2
      · rw [if_neg hc, if_neg (htime ▸ hc)]
        exact h

theorem runLoop_exit
    (ev : SpacecraftState → ℝ → String → Bool × List String)
    (scenario : String) (noises : ℕ → SensorNoise) (duration : ℝ) :
    ∀ (fuel i : ℕ) (sim : HILSimulator),
      duration ≤ (runLoop ev scenario noises duration fuel i sim).time ∨
      (runLoop ev scenario noises duration fuel i sim).test_log.length =
        sim.test_log.length + fuel := by
  intro fuel
  induction fuel with
  | zero =>
      intro i sim
      right
      simp [runLoop]
  | succ fuel ih =>
      intro i sim
      simp only [runLoop]
      by_cases hc : sim.time < duration
      · rw [if_pos hc]
        rcases ih (i + 1) (tick ev scenario (noises i) i sim) with hl | hr
        · exact Or.inl hl
        · right
          rw [hr, tick_log_length]
          omega
      · rw [if_neg hc]
        exact Or.inl (not_lt.mp hc)

/-- C8: the evaluator's boolean result never halts the run. For every
evaluator (hence every sequence of evaluator outcomes), every scenario
and every duration, the driver loop produces exactly the same timestep,
time, true state and run log as the loop with the evaluation step
removed — the check only appends warning lines to the output — and the
loop keeps executing ticks (one log record each) until `time ≥ duration`
or the fuel bound is exhausted. -/
theorem evaluator_never_halts
    (ev : SpacecraftState → ℝ → String → Bool × List String)
    (scenario : String) (noises : ℕ → SensorNoise) (duration : ℝ)
    (fuel i : ℕ) (sim : HILSimulator) :
    stripOutput (runLoop ev scenario noises duration fuel i sim) =
      stripOutput (runLoopNoEval scenario noises duration fuel i sim) ∧
    (duration ≤ (runLoop ev scenario noises duration fuel i sim).time ∨
      (runLoop ev scenario noises duration fuel i sim).test_log.length =
        sim.test_log.length + fuel) :=
  ⟨runLoop_strip_eq ev scenario noises duration fuel i sim sim rfl,
    runLoop_exit ev scenario noises duration fuel i sim⟩

end GNC

/-- C9: every placeholder module of the repository implements `calculate`
as the identity on its input and `validate` as the test that the input is
not absent (`None`). -/
theorem placeholder_calculate_validate (α : Type) (x : α) (d : Option α) :
    MissionParameters.calculate x = x ∧
    (MissionParameters.validate d = true ↔ d ≠ none) ∧
    OrbitalMechanics.calculate x = x ∧
    (OrbitalMechanics.validate d = true ↔ d ≠ none) ∧
    TrajectoryOptimizer.calculate x = x ∧
    (TrajectoryOptimizer.validate d = true ↔ d ≠ none) ∧
    DataProcessing.calculate x = x ∧
    (DataProcessing.validate d = true ↔ d ≠ none) ∧
    VisualizationTools.calculate x = x ∧
    (VisualizationTools.validate d = true ↔ d ≠ none) := by
  refine ⟨rfl, ?_, rfl, ?_, rfl, ?_, rfl, ?_, rfl, ?_⟩ <;>
    simp [MissionParameters.validate, OrbitalMechanics.validate,
      TrajectoryOptimizer.validate, DataProcessing.validate,
      VisualizationTools.validate, Option.isSome_iff_ne_none]
